import Mathlib

/-!
Verification of the pixel-wise RESTREND pipeline in
`src/restrend_pointwise/src/main.py` (trends.earth-gee).

Every Earth Engine operation used by the source is element-wise over the
pixels of a raster, so the embedding models a single pixel: an image is an
`Option ℚ` (`none` = the pixel is masked / invalid), an image collection is
a `List` of per-pixel values, optionally tagged with the `year` property the
source sets on each image.  The Earth Engine primitives (`lt`, `gt`, `add`,
`subtract`, `multiply`, `abs`, `lte`, `where`, `unmask`, `updateMask`, the
`mean`, `median`, `sum` and `linearFit` reducers, `ee.Array.get`) are
embedded with their documented per-pixel semantics; the source functions are
then transcribed on top of them, keeping their names.
-/

/-- Per-pixel `ee.Image.lt`: `1` where the first operand is strictly below
the second, `0` otherwise; masked where either operand is masked. -/
def imgLt (a b : Option ℚ) : Option ℚ :=
  a.bind (fun x => b.map (fun y => if x < y then 1 else 0))

/-- Per-pixel `ee.Image.gt`: `1` where the first operand is strictly above
the second, `0` otherwise; masked where either operand is masked. -/
def imgGt (a b : Option ℚ) : Option ℚ :=
  a.bind (fun x => b.map (fun y => if x > y then 1 else 0))

/-- Per-pixel `ee.Image.add`: masked pixels propagate. -/
def optAdd (a b : Option ℚ) : Option ℚ :=
  a.bind (fun x => b.map (fun y => x + y))

/-- Per-pixel `ee.Image.subtract`: masked pixels propagate. -/
def optSub (a b : Option ℚ) : Option ℚ :=
  a.bind (fun x => b.map (fun y => x - y))

/-- Per-pixel `ee.Image.multiply`: masked pixels propagate. -/
def optMul (a b : Option ℚ) : Option ℚ :=
  a.bind (fun x => b.map (fun y => x * y))

/-- Per-pixel `ee.Image.abs`. -/
def absImg (a : Option ℚ) : Option ℚ :=
  a.map (fun x => |x|)

/-- Per-pixel `ee.Image.lte` against a constant: `1` where the pixel is
at most the constant, `0` otherwise; masked pixels stay masked. -/
def lteImg (a : Option ℚ) (c : ℚ) : Option ℚ :=
  a.map (fun x => if x ≤ c then 1 else 0)

/-- Per-pixel `ee.Image.where(test, value)`: the pixel is replaced by
`value` where `test` is unmasked and nonzero; where `test` is zero or
masked the pixel keeps its value; the input's mask is preserved. -/
def whereImg (img test : Option ℚ) (v : ℚ) : Option ℚ :=
  img.map (fun x => if test.getD 0 ≠ 0 then v else x)

/-- Per-pixel `ee.Image.unmask(v)`: masked pixels become `v`. -/
def unmaskImg (img : Option ℚ) (v : ℚ) : Option ℚ :=
  some (img.getD v)

/-- Per-pixel `ee.Image.updateMask(mask)`: the pixel is kept only where the
mask value is nonzero. -/
def updateMask (img : Option ℚ) (m : ℤ) : Option ℚ :=
  if m = 0 then none else img

/-- Per-pixel `ee.ImageCollection.sum()`: sum of the unmasked inputs,
masked when every input is masked. -/
def sumReduce (xs : List (Option ℚ)) : Option ℚ :=
  (xs.filterMap id).foldr (fun v acc => some (v + acc.getD 0)) none

/-- Per-pixel `ee.Reducer.mean()`: arithmetic mean of the unmasked inputs,
masked when every input is masked. -/
def meanReduce (xs : List (Option ℚ)) : Option ℚ :=
  (sumReduce xs).map (fun s => s / (xs.filterMap id).length)

/-- Per-pixel `ee.Reducer.median()`: median of the unmasked inputs (average
of the two middle values for an even count), masked when every input is
masked. -/
def medianReduce (xs : List (Option ℚ)) : Option ℚ :=
  let v := (xs.filterMap id).insertionSort (fun a b => a ≤ b)
  v.head?.map (fun h => (v.getD (v.length / 2) h + v.getD ((v.length - 1) / 2) h) / 2)

/-- Result of `ee.Reducer.linearFit()`: the per-pixel `scale` (slope) and
`offset` (intercept) bands. -/
structure FitResult where
  scale : Option ℚ
  offset : Option ℚ
deriving DecidableEq

/-- Per-pixel `ee.Reducer.linearFit()`: ordinary least-squares slope and
intercept over the pairs with both coordinates unmasked; masked where fewer
than two such pairs exist or the independent variable has zero variance. -/
def linearFit (pts : List (Option ℚ × Option ℚ)) : FitResult :=
  let v := pts.filterMap (fun p => p.1.bind (fun x => p.2.map (fun y => (x, y))))
  let n : ℚ := v.length
  let sx := (v.map Prod.fst).sum
  let sy := (v.map Prod.snd).sum
  let sxx := (v.map (fun q => q.1 * q.1)).sum
  let sxy := (v.map (fun q => q.1 * q.2)).sum
  if v.length < 2 ∨ n * sxx - sx * sx = 0 then ⟨none, none⟩
  else
    let sc := (n * sxy - sx * sy) / (n * sxx - sx * sx)
    ⟨some sc, some ((sy - sc * sx) / n)⟩

/-- Python `range(year_start, year_end)`: the years from `year_start`
(inclusive) to `year_end` (exclusive), ascending. -/
def rangeInt (year_start year_end : ℤ) : List ℤ :=
  (List.range (year_end - year_start).toNat).map (fun (i : ℕ) => year_start + (i : ℤ))

/-- `mann_kendall_stat` (main.py lines 43-70), per pixel.  The source turns
the collection into a list of at most 50 images, then loops
`for k in range(0, NumberOfItems-2)` and `for l in range(k+1,
NumberOfItems-1)`, collecting `lt` images as concordant and `gt` images as
discordant, and returns `sum(concordant) - sum(discordant)`. -/
def mann_kendall_stat (ts : List (Option ℚ)) : Option ℚ :=
  let l := ts.take 50
  let n := l.length
  let pairs := (List.range (n - 2)).flatMap
    (fun k => (List.range' (k + 1) (n - 1 - (k + 1))).map (fun j => (k, j)))
  let conc := pairs.map (fun p => imgLt (l.getD p.1 none) (l.getD p.2 none))
  let disc := pairs.map (fun p => imgGt (l.getD p.1 none) (l.getD p.2 none))
  optSub (sumReduce conc) (sumReduce disc)

/-- The Mann-Kendall S statistic as the spec words it (§4.3): for every
unordered pair of distinct time indices `(i, j)` with `i < j`, count one
concordant when `value[i] < value[j]` and one discordant when
`value[i] > value[j]`, and return concordant minus discordant.  Clearly
named spec-side definition, to be compared with `mann_kendall_stat`. -/
def mann_kendall_claim (ts : List (Option ℚ)) : Option ℚ :=
  let n := ts.length
  let pairs := (List.range n).flatMap
    (fun i => (List.range' (i + 1) (n - (i + 1))).map (fun j => (i, j)))
  let conc := pairs.map (fun p => imgLt (ts.getD p.1 none) (ts.getD p.2 none))
  let disc := pairs.map (fun p => imgGt (ts.getD p.1 none) (ts.getD p.2 none))
  optSub (sumReduce conc) (sumReduce disc)

/-- The mask computed by `qa_filter` (main.py lines 124-132) from the
`SummaryQA` flag: the mask starts as the flag value itself and is rewritten
by five successive `where(SummaryQA.eq(c), v)` calls, each testing the
original flag band. -/
def qa_mask (qa : ℤ) : ℤ :=
  let m := qa
  let m := if qa = -1 then 0 else m
  let m := if qa = 0 then 1 else m
  let m := if qa = 1 then 1 else m
  let m := if qa = 2 then 0 else m
  let m := if qa = 3 then 0 else m
  m

/-- `qa_filter` (main.py lines 124-132), per pixel: the NDVI band masked by
the quality mask derived from the `SummaryQA` flag. -/
def qa_filter (qa : ℤ) (ndvi : Option ℚ) : Option ℚ :=
  updateMask ndvi (qa_mask qa)

/-- `int_16d_1yr_o` (main.py lines 135-141), per pixel: for each year `k` in
`range(year_start, year_end)`, the mean of the NDVI values dated in year
`k`, multiplied by `0.0001`, tagged with the year.  The input collection is
a list of `(year, pixel)` pairs. -/
def int_16d_1yr_o (year_start year_end : ℤ) (ndvi_coll : List (ℤ × Option ℚ)) :
    List (ℤ × Option ℚ) :=
  (rangeInt year_start year_end).map (fun k =>
    (k, (meanReduce ((ndvi_coll.filter (fun p => p.1 = k)).map Prod.snd)).map
          (fun x => x * (1 / 10000))))

/-- `int_15d_1yr_clim` (main.py lines 144-149), per pixel: for `k` in
`range(1, 34)` the mean of bands `(k-1)*24 .. k*24-1` of the climate stack,
tagged with year `1981 + k`. -/
def int_15d_1yr_clim (img_stack : List (Option ℚ)) : List (ℤ × Option ℚ) :=
  (List.range' 1 33).map (fun (k : ℕ) =>
    (1981 + (k : ℤ), meanReduce ((img_stack.drop ((k - 1) * 24)).take 24)))

/-- One image of the `stack` collection (main.py lines 152-159): bands
`ndvi`, `clim` and `year`. -/
structure StackImg where
  ndvi : Option ℚ
  clim : Option ℚ
  year : ℤ
deriving DecidableEq

/-- `stack` (main.py lines 152-159), per pixel: for each year `k` in
`range(year_start, year_end)`, the median over the annual-NDVI images of
year `k`, the median over the annual-climate images of year `k`, and the
year band. -/
def stack (year_start year_end : ℤ) (ndvi_1yr_o clim_1yr_o : List (ℤ × Option ℚ)) :
    List StackImg :=
  (rangeInt year_start year_end).map (fun k =>
    { ndvi := medianReduce ((ndvi_1yr_o.filter (fun p => p.1 = k)).map Prod.snd)
      clim := medianReduce ((clim_1yr_o.filter (fun p => p.1 = k)).map Prod.snd)
      year := k })

/-- The collection built by iterating `ndvi_clim_p` (main.py lines 162-165,
198) over the `clim` band of `coll_1yr_o`: each climate image is mapped to
`offset + scale * clim`, keeping its `year` property. -/
def ndvi_1yr_p (lf_clim_ndvi : FitResult) (clim_coll : List (ℤ × Option ℚ)) :
    List (ℤ × Option ℚ) :=
  clim_coll.map (fun ci => (ci.1, optAdd lf_clim_ndvi.offset (optMul lf_clim_ndvi.scale ci.2)))

/-- `ndvi_clim_r_img` (main.py lines 168-172), per pixel: the observed
annual NDVI of the given year (median over `coll_1yr_o`) minus the
predicted NDVI of the given year (median over `ndvi_1yr_p`), tagged with
the year band. -/
def ndvi_clim_r_img (coll_1yr_o : List StackImg) (pred : List (ℤ × Option ℚ))
    (year : ℤ) : ℤ × Option ℚ :=
  let ndvi_o := medianReduce ((coll_1yr_o.filter (fun s => s.year = year)).map StackImg.ndvi)
  let ndvi_p := medianReduce ((pred.filter (fun q => q.1 = year)).map Prod.snd)
  (year, optSub ndvi_o ndvi_p)

/-- `ndvi_clim_r_coll` (main.py lines 175-180): one residual image per year
`i` in `range(year_start, year_end)`. -/
def ndvi_clim_r_coll (coll_1yr_o : List StackImg) (pred : List (ℤ × Option ℚ))
    (year_start year_end : ℤ) : List (ℤ × Option ℚ) :=
  (rangeInt year_start year_end).map (ndvi_clim_r_img coll_1yr_o pred)

/-- The residual collection `ndvi_1yr_r` exactly as `restrend_pointwise`
builds it (main.py lines 192-201), starting from the annual NDVI and
annual climate collections. -/
def restrendResiduals (year_start year_end : ℤ)
    (ndvi_1yr_o_c clim_1yr_o_c : List (ℤ × Option ℚ)) : List (ℤ × Option ℚ) :=
  let coll_1yr_o := stack year_start year_end ndvi_1yr_o_c clim_1yr_o_c
  let lf_clim_ndvi := linearFit (coll_1yr_o.map (fun s => (s.clim, s.ndvi)))
  let pred := ndvi_1yr_p lf_clim_ndvi (coll_1yr_o.map (fun s => (s.year, s.clim)))
  ndvi_clim_r_coll coll_1yr_o pred year_start year_end

/-- The critical-value table of `restrend_pointwise` (main.py lines
211-214): the `ee.Array` of Mann-Kendall critical S values at significance
0.05. -/
def coefficients : List ℤ :=
  [4, 6, 9, 11, 14, 16, 19, 21, 24, 26, 31, 33, 36,
   40, 43, 47, 50, 54, 59, 63, 66, 70, 75, 79, 84,
   88, 93, 97, 102, 106, 111, 115, 120, 126, 131,
   137, 142]

/-- `kendall = coefficients.get([period - 4])` (main.py line 215):
`ee.Array.get` fails on an out-of-range index, modelled as `none`. -/
def kendall (p : ℤ) : Option ℤ :=
  if p - 4 < 0 then none else coefficients.get? (p - 4).toNat

/-- `period = year_end - year_start + 1` (main.py line 210). -/
def period (year_start year_end : ℤ) : ℤ :=
  year_end - year_start + 1

/-- The exported image (main.py line 220), per pixel:
`lf_prest.select('scale').where(mk_trend.abs().lte(kendall), -99999)
.where(lf_prest.select('scale').abs().lte(0.000001), -99999)
.unmask(-99999)`. -/
def exportPixel (slope mk_trend : Option ℚ) (kendallVal : ℚ) : Option ℚ :=
  unmaskImg
    (whereImg
      (whereImg slope (lteImg (absImg mk_trend) kendallVal) (-99999))
      (lteImg (absImg slope) (1 / 1000000)) (-99999))
    (-99999)

/-- The exported pixel as the spec words it (§4.5 stage 10): the
residual-trend slope, replaced by the `-99999` sentinel where the
vegetation Mann-Kendall statistic is at most the critical value in absolute
value, where the slope is at most `1e-6` in absolute value, or where the
slope is invalid (masked by an upstream stage); where the Mann-Kendall
statistic is masked the `where` test does not fire.  Clearly named
spec-side definition, to be compared with `exportPixel`. -/
def exportPixelSpec (slope mk_trend : Option ℚ) (kendallVal : ℚ) : ℚ :=
  match slope, mk_trend with
  | none, _ => -99999
  | some s, some m => if |m| ≤ kendallVal ∨ |s| ≤ 1 / 1000000 then -99999 else s
  | some s, none => if |s| ≤ 1 / 1000000 then -99999 else s

/-- The tail of `restrend_pointwise` (main.py lines 192-220), per pixel,
from the annual NDVI and climate collections to the exported image.  The
Mann-Kendall computation applied to the residual collection (line 207,
`mk_prest`) is kept as an explicit intermediate, parameterised by the
statistic function applied there. -/
def restrendExportPixel (mkResFn : List (Option ℚ) → Option ℚ)
    (year_start year_end : ℤ) (ndvi_1yr_o_c clim_1yr_o_c : List (ℤ × Option ℚ))
    (kendallVal : ℚ) : Option ℚ :=
  let coll_1yr_o := stack year_start year_end ndvi_1yr_o_c clim_1yr_o_c
  let lf_clim_ndvi := linearFit (coll_1yr_o.map (fun s => (s.clim, s.ndvi)))
  let pred := ndvi_1yr_p lf_clim_ndvi (coll_1yr_o.map (fun s => (s.year, s.clim)))
  let ndvi_1yr_r := ndvi_clim_r_coll coll_1yr_o pred year_start year_end
  let lf_prest := linearFit (ndvi_1yr_r.map (fun r => ((some (r.1 : ℚ) : Option ℚ), r.2)))
  let mk_prest := mkResFn (ndvi_1yr_r.map Prod.snd)
  let mk_trend := mann_kendall_stat (ndvi_1yr_o_c.map Prod.snd)
  exportPixel lf_prest.scale mk_trend kendallVal

/-- The same tail with line 207 (`mk_prest`, the Mann-Kendall statistic of
the residual collection) deleted. -/
def restrendExportPixelNoResMK (year_start year_end : ℤ)
    (ndvi_1yr_o_c clim_1yr_o_c : List (ℤ × Option ℚ)) (kendallVal : ℚ) : Option ℚ :=
  let coll_1yr_o := stack year_start year_end ndvi_1yr_o_c clim_1yr_o_c
  let lf_clim_ndvi := linearFit (coll_1yr_o.map (fun s => (s.clim, s.ndvi)))
  let pred := ndvi_1yr_p lf_clim_ndvi (coll_1yr_o.map (fun s => (s.year, s.clim)))
  let ndvi_1yr_r := ndvi_clim_r_coll coll_1yr_o pred year_start year_end
  let lf_prest := linearFit (ndvi_1yr_r.map (fun r => ((some (r.1 : ℚ) : Option ℚ), r.2)))
  let mk_trend := mann_kendall_stat (ndvi_1yr_o_c.map Prod.snd)
  exportPixel lf_prest.scale mk_trend kendallVal

/-- A GeoJSON geometry object: its `type` key (here `gtype`) and its
`coordinates` key. -/
structure Geometry where
  gtype : String
  coordinates : List (List (ℚ × ℚ))

/-- A GeoJSON feature: its `geometry` key. -/
structure Feature where
  geometry : Geometry

/-- A GeoJSON object as `get_coords`/`get_type` (main.py lines 24-41)
distinguish them: one with a `features` key, one with a `geometry` key, or
a bare geometry. -/
inductive GeoJSON where
  | featureCollection (features : List Feature)
  | feature (f : Feature)
  | geom (g : Geometry)

/-- `get_coords` (main.py lines 24-31): with a `features` key present the
coordinates of `features[0].geometry`; Python's `features[0]` raises on an
empty list, modelled as `none`. -/
def get_coords : GeoJSON → Option (List (List (ℚ × ℚ)))
  | .featureCollection features => features.head?.map (fun f => f.geometry.coordinates)
  | .feature f => some f.geometry.coordinates
  | .geom g => some g.coordinates

/-- `get_type` (main.py lines 34-41): with a `features` key present the
type of `features[0].geometry`; Python's `features[0]` raises on an empty
list, modelled as `none`. -/
def get_type : GeoJSON → Option String
  | .featureCollection features => features.head?.map (fun f => f.geometry.gtype)
  | .feature f => some f.geometry.gtype
  | .geom g => some g.gtype

/-! ## Helper lemmas -/

lemma mem_rangeInt {year_start year_end k : ℤ} :
    k ∈ rangeInt year_start year_end ↔ year_start ≤ k ∧ k < year_end := by
  simp only [rangeInt, List.mem_map, List.mem_range]
  constructor
  · rintro ⟨i, hi, rfl⟩
    omega
  · rintro ⟨h1, h2⟩
    exact ⟨(k - year_start).toNat, by omega, by omega⟩

lemma rangeInt_nodup (year_start year_end : ℤ) : (rangeInt year_start year_end).Nodup := by
  refine List.Nodup.map ?_ (List.nodup_range _)
  intro a b hab
  have h : (a : ℤ) = b := by simpa using hab
  omega

lemma length_rangeInt (year_start year_end : ℤ) :
    (rangeInt year_start year_end).length = (year_end - year_start).toNat := by
  simp [rangeInt]

/-! ## Claim theorems -/

/-- Claim C1 (code_bug evaluation): on the 3-layer stack with per-pixel
values `[0, 1, 2]`, `mann_kendall_stat` returns `S = 1`, while the
all-pairs Mann-Kendall statistic described by the spec (and by the
function's own docstring) is `S = 3`: the loops
`range(0, NumberOfItems-2)` / `range(k+1, NumberOfItems-1)` never pair the
last layer. -/
theorem claim_C1_last_layer_dropped :
    mann_kendall_stat [some 0, some 1, some 2] = some 1 ∧
      mann_kendall_claim [some 0, some 1, some 2] = some 3 := by
  constructor <;>
    norm_num [mann_kendall_stat, mann_kendall_claim, imgLt, imgGt, sumReduce, optSub,
      List.range_succ, List.range', List.filterMap_cons, Function.comp]

/-- Claim C2: the exported pixel equals the residual-trend slope, replaced
by the `-99999` sentinel where the vegetation Mann-Kendall statistic is at
most the critical value in absolute value, where the slope is at most
`1e-6` in absolute value, or where the slope is invalid (masked upstream),
as stated by `exportPixelSpec`. -/
theorem claim_C2_export_masking (slope mk_trend : Option ℚ) (kendallVal : ℚ) :
    exportPixel slope mk_trend kendallVal =
      some (exportPixelSpec slope mk_trend kendallVal) := by
  cases slope with
  | none => cases mk_trend <;> rfl
  | some s =>
    cases mk_trend with
    | none =>
      by_cases h2 : |s| ≤ 1 / 1000000 <;>
        simp [exportPixel, exportPixelSpec, whereImg, unmaskImg, lteImg, absImg, h2]
    | some m =>
      by_cases h1 : |m| ≤ kendallVal <;> by_cases h2 : |s| ≤ 1 / 1000000 <;>
        simp [exportPixel, exportPixelSpec, whereImg, unmaskImg, lteImg, absImg, h1, h2]

/-- Claim C3 (counterexample): the claim says the lookup fails for
`period = 40`, but the table has 37 entries, so `kendall 40` succeeds and
returns `142`. -/
theorem claim_C3_counterexample : kendall 40 = some 142 := by decide

/-- Claim C3 (amended): the critical-value lookup supports exactly periods
4 through 40 (the table has 37 entries, indexed at `period - 4`); for
`period = 3` and `period = 41` the `ee.Array.get` index is out of range and
the lookup fails. -/
theorem claim_C3_supported_range :
    (∀ p : ℤ, 4 ≤ p → p ≤ 40 → (kendall p).isSome = true) ∧
      kendall 3 = none ∧ kendall 41 = none := by
  refine ⟨fun p h1 h2 => ?_, by decide, by decide⟩
  interval_cases p <;> decide

/-- Claim C3 (witness): the supported-range half of
`claim_C3_supported_range` applied at `period = 13`. -/
theorem claim_C3_witness : (kendall 13).isSome = true :=
  claim_C3_supported_range.1 13 (by norm_num) (by norm_num)

/-- Claim C4 (code_bug evaluation): with the default years
`year_start = 2003`, `year_end = 2015`, the residual collection built by
`ndvi_clim_r_coll` (via `range(year_start, year_end)`, exclusive end) has
12 layers — year 2015 is missing — while `period = year_end - year_start
+ 1 = 13` is the sample count used for the critical-value lookup. -/
theorem claim_C4_residual_count :
    (restrendResiduals 2003 2015 [] []).length = 12 ∧ period 2003 2015 = 13 := by
  constructor
  · simp [restrendResiduals, ndvi_clim_r_coll, length_rangeInt]
  · decide

/-- Claim C5 (code_bug evaluation): on the tie-free series `[0, 5, 1]` and
its full reversal `[1, 5, 0]`, `mann_kendall_stat` returns `1` for both,
instead of negating: the last layer never enters a pair, so reversal
symmetry fails. -/
theorem claim_C5_reversal_fails :
    mann_kendall_stat [some 0, some 5, some 1] = some 1 ∧
      mann_kendall_stat [some 1, some 5, some 0] = some 1 := by
  constructor <;>
    norm_num [mann_kendall_stat, imgLt, imgGt, sumReduce, optSub,
      List.range_succ, List.range', List.filterMap_cons, Function.comp]

/-- Claim C6 (counterexample): annual resampling of an empty source
collection over `range(2003, 2005)` does not fail — it produces a full
output, one masked composite per requested year.  No
`InsufficientDataError` exists in the code. -/
theorem claim_C6_counterexample :
    int_16d_1yr_o 2003 2005 [] = [((2003 : ℤ), (none : Option ℚ)), (2004, none)] := by
  decide

/-- Claim C6 (amended): a requested year with zero contributing source
layers yields a masked (nodata) annual composite for that year; no error is
raised and the remaining years are produced normally. -/
theorem claim_C6_empty_year_masked (year_start year_end k : ℤ)
    (coll : List (ℤ × Option ℚ))
    (h1 : year_start ≤ k) (h2 : k < year_end)
    (h3 : coll.filter (fun p => p.1 = k) = []) :
    (k, (none : Option ℚ)) ∈ int_16d_1yr_o year_start year_end coll := by
  unfold int_16d_1yr_o
  refine List.mem_map.mpr ⟨k, mem_rangeInt.mpr ⟨h1, h2⟩, ?_⟩
  rw [h3]
  rfl

/-- Claim C6 (witness): `claim_C6_empty_year_masked` at `year_start = 2003`,
`year_end = 2005`, `k = 2004`, with a collection containing data only for
2003. -/
theorem claim_C6_witness :
    ((2004 : ℤ), (none : Option ℚ)) ∈ int_16d_1yr_o 2003 2005 [((2003 : ℤ), some 1)] :=
  claim_C6_empty_year_masked 2003 2005 2004 [((2003 : ℤ), some 1)]
    (by decide) (by decide) (by decide)

/-- Claim C7: over the `SummaryQA` flag domain `{-1, 0, 1, 2, 3}`, the
quality filter keeps the NDVI pixel exactly when the flag is `0` or `1`
and masks it when the flag is `-1`, `2` or `3`. -/
theorem claim_C7_qa_filter (qa : ℤ) (v : Option ℚ)
    (h : qa = -1 ∨ qa = 0 ∨ qa = 1 ∨ qa = 2 ∨ qa = 3) :
    qa_filter qa v = if qa = 0 ∨ qa = 1 then v else none := by
  rcases h with rfl | rfl | rfl | rfl | rfl <;> rfl

/-- Claim C7 (witness): `claim_C7_qa_filter` at flag `1` and NDVI value
`7`: the pixel is kept. -/
theorem claim_C7_witness : qa_filter 1 (some 7) = some 7 := by
  have h := claim_C7_qa_filter 1 (some 7) (by norm_num)
  simpa using h

/-- Claim C9: the exported pixel does not depend on the Mann-Kendall
statistic computed on the residual collection (`mk_prest`, main.py line
207): the pipeline tail with that computation removed produces an
identical output, whatever statistic function is applied there. -/
theorem claim_C9_mk_prest_unused (mkResFn : List (Option ℚ) → Option ℚ)
    (year_start year_end : ℤ) (ndvi_1yr_o_c clim_1yr_o_c : List (ℤ × Option ℚ))
    (kendallVal : ℚ) :
    restrendExportPixel mkResFn year_start year_end ndvi_1yr_o_c clim_1yr_o_c kendallVal =
      restrendExportPixelNoResMK year_start year_end ndvi_1yr_o_c clim_1yr_o_c kendallVal :=
  rfl

/-- Claim C10: when the GeoJSON has a `features` key, `get_coords` and
`get_type` use only the first feature's geometry — its coordinates and
type — and the result does not change when the remaining features are
replaced by any other list. -/
theorem claim_C10_first_feature (f : Feature) (rest rest2 : List Feature) :
    get_coords (.featureCollection (f :: rest)) = some f.geometry.coordinates ∧
      get_type (.featureCollection (f :: rest)) = some f.geometry.gtype ∧
      get_coords (.featureCollection (f :: rest)) =
        get_coords (.featureCollection (f :: rest2)) ∧
      get_type (.featureCollection (f :: rest)) =
        get_type (.featureCollection (f :: rest2)) :=
  ⟨rfl, rfl, rfl, rfl⟩

lemma filter_key_singleton {α : Type} (key : α → ℤ) (f : ℤ → α)
    (hf : ∀ y, key (f y) = y) :
    ∀ (l : List ℤ), l.Nodup → ∀ k, k ∈ l →
      (l.map f).filter (fun s => key s = k) = [f k] := by
  intro l
  induction l with
  | nil => intro _ k hk; cases hk
  | cons a t ih =>
    intro hnd k hk
    rcases List.nodup_cons.mp hnd with ⟨ha, hndt⟩
    rcases List.mem_cons.mp hk with rfl | hkt
    · simp only [List.map_cons, List.filter_cons, hf]
      have hnil : (t.map f).filter (fun s => decide (key s = k)) = [] := by
        refine List.filter_eq_nil_iff.mpr ?_
        intro s hs
        rcases List.mem_map.mp hs with ⟨y, hy, rfl⟩
        simp [hf]
        intro h
        exact ha (h ▸ hy)
      simp [hnil]
    · have hak : a ≠ k := fun h => ha (h ▸ hkt)
      simp only [List.map_cons, List.filter_cons, hf]
      rw [if_neg (by simpa using hak)]
      exact ih hndt k hkt

lemma medianReduce_single (x : ℚ) : medianReduce [some x] = some x := by
  norm_num [medianReduce, List.insertionSort, List.filterMap_cons]

/-- Claim C8: for every year `k` handled by the pipeline and every pixel
with defined annual medians, the predicted vegetation value is
`offset + scale * climate[k]` from the single global climate-to-NDVI
regression, and the residual layer of year `k` holds
`observed_ndvi[k] - predicted[k]`. -/
theorem claim_C8_residuals (year_start year_end k : ℤ)
    (ndvi_1yr_o_c clim_1yr_o_c : List (ℤ × Option ℚ)) (a b o c : ℚ)
    (hk1 : year_start ≤ k) (hk2 : k < year_end)
    (hlf : linearFit ((stack year_start year_end ndvi_1yr_o_c clim_1yr_o_c).map
        (fun s => (s.clim, s.ndvi))) = ⟨some a, some b⟩)
    (ho : medianReduce ((ndvi_1yr_o_c.filter (fun p => p.1 = k)).map Prod.snd) = some o)
    (hc : medianReduce ((clim_1yr_o_c.filter (fun p => p.1 = k)).map Prod.snd) = some c) :
    (k, some (o - (b + a * c))) ∈
      restrendResiduals year_start year_end ndvi_1yr_o_c clim_1yr_o_c := by
  have hmem : k ∈ rangeInt year_start year_end := mem_rangeInt.mpr ⟨hk1, hk2⟩
  have hunfold : restrendResiduals year_start year_end ndvi_1yr_o_c clim_1yr_o_c =
      ndvi_clim_r_coll (stack year_start year_end ndvi_1yr_o_c clim_1yr_o_c)
        (ndvi_1yr_p
          (linearFit ((stack year_start year_end ndvi_1yr_o_c clim_1yr_o_c).map
            (fun s => (s.clim, s.ndvi))))
          ((stack year_start year_end ndvi_1yr_o_c clim_1yr_o_c).map
            (fun s => (s.year, s.clim))))
        year_start year_end := rfl
  rw [hunfold, hlf]
  have hstack : (stack year_start year_end ndvi_1yr_o_c clim_1yr_o_c).filter
      (fun s => s.year = k) = [⟨some o, some c, k⟩] := by
    have h := filter_key_singleton StackImg.year
      (fun y =>
        { ndvi := medianReduce ((ndvi_1yr_o_c.filter (fun p => p.1 = y)).map Prod.snd)
          clim := medianReduce ((clim_1yr_o_c.filter (fun p => p.1 = y)).map Prod.snd)
          year := y })
      (fun y => rfl) (rangeInt year_start year_end)
      (rangeInt_nodup year_start year_end) k hmem
    rw [stack, h]
    simp only [ho, hc]
  have hpred : (ndvi_1yr_p ⟨some a, some b⟩
      ((stack year_start year_end ndvi_1yr_o_c clim_1yr_o_c).map
        (fun s => (s.year, s.clim)))).filter (fun q => q.1 = k) =
      [(k, some (b + a * c))] := by
    have hcomp : (ndvi_1yr_p ⟨some a, some b⟩
        ((stack year_start year_end ndvi_1yr_o_c clim_1yr_o_c).map
          (fun s => (s.year, s.clim)))) =
        (rangeInt year_start year_end).map
          (fun y => ((y : ℤ),
            optAdd (some b) (optMul (some a)
              (medianReduce ((clim_1yr_o_c.filter (fun p => p.1 = y)).map Prod.snd))))) := by
      rw [stack, ndvi_1yr_p, List.map_map, List.map_map]
      rfl
    have h := filter_key_singleton Prod.fst
      (fun y => ((y : ℤ),
        optAdd (some b) (optMul (some a)
          (medianReduce ((clim_1yr_o_c.filter (fun p => p.1 = y)).map Prod.snd)))))
      (fun y => rfl) (rangeInt year_start year_end)
      (rangeInt_nodup year_start year_end) k hmem
    rw [hcomp, h]
    simp only [hc]
    rfl
  refine List.mem_map.mpr ⟨k, hmem, ?_⟩
  show ndvi_clim_r_img _ _ k = _
  rw [ndvi_clim_r_img, hstack, hpred]
  show (k, optSub (medianReduce [some o]) (medianReduce [some (b + a * c)])) = _
  rw [medianReduce_single, medianReduce_single]
  rfl

/-- Claim C8 (witness): `claim_C8_residuals` on a two-year pipeline with
NDVI and climate both `[0, 1]`: the global fit is `scale = 1`,
`offset = 0`, and the year-0 residual is `0 - (0 + 1 * 0)`. -/
theorem claim_C8_witness :
    ((0 : ℤ), some ((0 : ℚ) - (0 + 1 * 0))) ∈
      restrendResiduals 0 2 [((0 : ℤ), some 0), (1, some 1)]
        [((0 : ℤ), some 0), (1, some 1)] := by
  have hstack : stack 0 2 [((0 : ℤ), some 0), (1, some 1)]
      [((0 : ℤ), some 0), (1, some 1)] =
      [⟨some 0, some 0, 0⟩, ⟨some 1, some 1, 1⟩] := by
    have hrange : rangeInt 0 2 = [0, 1] := by decide
    norm_num [stack, hrange, medianReduce_single]
  have hlf : linearFit ((stack 0 2 [((0 : ℤ), some 0), (1, some 1)]
      [((0 : ℤ), some 0), (1, some 1)]).map (fun s => (s.clim, s.ndvi))) =
      ⟨some 1, some 0⟩ := by
    rw [hstack]
    norm_num [linearFit, List.filterMap_cons]
  exact claim_C8_residuals 0 2 0 [((0 : ℤ), some 0), (1, some 1)]
    [((0 : ℤ), some 0), (1, some 1)] 1 0 0 0
    (by norm_num) (by norm_num) hlf
    (by norm_num [medianReduce_single])
    (by norm_num [medianReduce_single])
